import Mathlib

/-!
Verification of the SimpleMem PaperAgent MCP server memory core.

The definitions below are a shallow embedding of the class
`MockSimpleMemSystem` in `src/simplemem_mcp_server.py`.  Python object
state is modelled as an explicit record `MemState`; each method becomes
a function from the state (plus its arguments) to the new state and the
returned value.  Methods that never assign to `self` are embedded as
functions that return the state unchanged.
-/

namespace SimpleMem

/-- A buffered dialogue turn, as the dict built in `add_dialogue`:
speaker, content, timestamp (all strings, no validation or parsing). -/
structure Dialogue where
  speaker : String
  content : String
  timestamp : String
deriving DecidableEq, Repr

/-- An atomic memory entry, as the dict built in `finalize`:
the `fact` field is the dialogue content, the timestamp is copied, and
`embedding_id` is the string `emb_<index>` where the index is the length
of `memory_entries` at the moment of the append. -/
structure AtomicFact where
  speaker : String
  fact : String
  timestamp : String
  embedding_id : String
deriving DecidableEq, Repr

/-- The `self.metadata` dict of `MockSimpleMemSystem`. -/
structure Metadata where
  total_dialogues : Nat
  total_atoms : Nat
  last_finalized : Option String
deriving DecidableEq, Repr

/-- The mutable state of a `MockSimpleMemSystem` instance
(`db_path` is omitted: it is never read by the operations modelled here). -/
structure MemState where
  dialogue_buffer : List Dialogue
  memory_entries : List AtomicFact
  metadata : Metadata
deriving DecidableEq, Repr

/-- The state built by `__init__`: empty buffer, empty entries, zeroed metadata. -/
def initState : MemState :=
  { dialogue_buffer := []
    memory_entries := []
    metadata := { total_dialogues := 0, total_atoms := 0, last_finalized := none } }

/-- The dict returned by `add_dialogue`:
`{"status": "buffered", "dialogue_id": len(self.dialogue_buffer) - 1}`. -/
structure AddResult where
  status : String
  dialogue_id : Nat
deriving DecidableEq, Repr

/-- Embedding of `MockSimpleMemSystem.add_dialogue`: append the turn to
`dialogue_buffer`, increment `metadata["total_dialogues"]`, and return
status `buffered` with `dialogue_id = len(dialogue_buffer) - 1`
(the index of the new turn in the current buffer). -/
def add_dialogue (s : MemState) (speaker content timestamp : String) :
    MemState × AddResult :=
  let buf := s.dialogue_buffer ++ [⟨speaker, content, timestamp⟩]
  let s1 : MemState :=
    { s with
      dialogue_buffer := buf
      metadata := { s.metadata with total_dialogues := s.metadata.total_dialogues + 1 } }
  (s1, { status := "buffered", dialogue_id := buf.length - 1 })

/-- The dict returned by `add_dialogues_batch`. -/
structure BatchResult where
  status : String
  count : Nat
  total_buffered : Nat
deriving DecidableEq, Repr

/-- Embedding of `MockSimpleMemSystem.add_dialogues_batch`: call
`add_dialogue` on each entry in input order, then report the submitted
count and the buffer size. -/
def add_dialogues_batch (s : MemState) (dialogues : List Dialogue) :
    MemState × BatchResult :=
  let s1 := dialogues.foldl
    (fun st d => (add_dialogue st d.speaker d.content d.timestamp).1) s
  (s1, { status := "buffered", count := dialogues.length,
         total_buffered := s1.dialogue_buffer.length })

/-- The fact built for one dialogue inside the `finalize` loop, where `n` is
`len(self.memory_entries)` at the moment of the append. -/
def mk_fact (n : Nat) (d : Dialogue) : AtomicFact :=
  { speaker := d.speaker
    fact := d.content
    timestamp := d.timestamp
    embedding_id := "emb_" ++ toString n }

/-- One iteration of the `finalize` loop body: append the fact built from
the dialogue and increment `metadata["total_atoms"]`. -/
def absorb (st : MemState) (d : Dialogue) : MemState :=
  { st with
    memory_entries := st.memory_entries ++ [mk_fact st.memory_entries.length d]
    metadata := { st.metadata with total_atoms := st.metadata.total_atoms + 1 } }

/-- The dict returned by `finalize`: either
`{"status": "no_dialogues_to_process"}` or
`{"status": "success", "processed": ..., "total_atoms": ...}`. -/
inductive FinalizeResult where
  | no_dialogues_to_process : FinalizeResult
  | success (processed : Nat) (total_atoms : Nat) : FinalizeResult
deriving DecidableEq, Repr

/-- The `status` string of a `finalize` return dict. -/
def FinalizeResult.statusString : FinalizeResult → String
  | .no_dialogues_to_process => "no_dialogues_to_process"
  | .success _ _ => "success"

/-- Embedding of `MockSimpleMemSystem.finalize`: if the buffer is empty return the
`no_dialogues_to_process` status without touching the state; otherwise loop
over the buffered dialogues appending one fact per dialogue, clear the
buffer, stamp `last_finalized` (the wall clock `datetime.now().isoformat()`
is passed in as `now`), and return `success` with the processed count and
the new atom total. -/
def finalize (now : String) (s : MemState) : MemState × FinalizeResult :=
  if s.dialogue_buffer = [] then
    (s, .no_dialogues_to_process)
  else
    let num_processed := s.dialogue_buffer.length
    let s1 := s.dialogue_buffer.foldl absorb s
    let s2 : MemState :=
      { s1 with
        dialogue_buffer := []
        metadata := { s1.metadata with last_finalized := some now } }
    (s2, .success num_processed s2.metadata.total_atoms)

/-- The entries selected by `ask`:
`self.memory_entries[:min(top_k, len(self.memory_entries))]`. -/
def relevant_entries (s : MemState) (top_k : Nat) : List AtomicFact :=
  s.memory_entries.take (min top_k s.memory_entries.length)

/-- One line of the context block built in `ask`:
`[{timestamp}] {speaker}: {fact}`. -/
def memoryLine (e : AtomicFact) : String :=
  "[" ++ e.timestamp ++ "] " ++ e.speaker ++ ": " ++ e.fact

/-- The string returned by `ask` when `memory_entries` is empty. -/
def noMemoriesMsg : String :=
  "No memories stored yet. Please add dialogues and finalize."

/-- Embedding of `MockSimpleMemSystem.ask`: on an empty store return the fixed
no-memories message; otherwise format the first `min(top_k, n)` entries
into the fixed answer template.  The method reads `self` but never
assigns to it. -/
def ask (s : MemState) (query : String) (top_k : Nat) : String :=
  if s.memory_entries = [] then
    noMemoriesMsg
  else
    let context := String.intercalate "\n" ((relevant_entries s top_k).map memoryLine)
    "Based on memory retrieval:\n\nRetrieved Memories:\n" ++ context ++
      "\n\nAnswer: [This would be generated by LLM based on retrieved context]\nFor query: \"" ++
      query ++
      "\"\n\nNote: This is a mock implementation. Production SimpleMem would use:\n- Semantic vector search (1024-d embeddings)\n- BM25 keyword matching\n- Temporal/entity filtering\n- Complexity-aware retrieval depth\n"

/-- The method `ask` as a state transformer: the Python method performs no
assignment to `self`, so the state component is returned unchanged. -/
def askOp (s : MemState) (query : String) (top_k : Nat) : MemState × String :=
  (s, ask s query top_k)

/-- Embedding of `MockSimpleMemSystem.get_atomic_entries`:
`self.memory_entries[:limit]`, no state change. -/
def get_atomic_entries (s : MemState) (limit : Nat) : List AtomicFact :=
  s.memory_entries.take limit

/-- Embedding of `MockSimpleMemSystem.clear`: reset buffer, entries and
metadata; returns the status string of `{"status": "cleared"}`. -/
def clearMemory (_s : MemState) : MemState × String :=
  (initState, "cleared")

/-- The operations that may run against a memory instance after facts
exist, other than the explicit `clear` (`get_stats` and
`get_atomic_entries` assign nothing to `self` and are embedded through the
identity on the state). -/
inductive Op where
  | addD (speaker content timestamp : String)
  | addBatch (dialogues : List Dialogue)
  | finalizeOp (now : String)
  | query (text : String) (top_k : Nat)
  | getEntries (limit : Nat)
deriving DecidableEq, Repr

/-- The state reached by running one operation. -/
def applyOp (op : Op) (s : MemState) : MemState :=
  match op with
  | .addD speaker content timestamp => (add_dialogue s speaker content timestamp).1
  | .addBatch dialogues => (add_dialogues_batch s dialogues).1
  | .finalizeOp now => (finalize now s).1
  | .query text top_k => (askOp s text top_k).1
  | .getEntries _ => s

/-- Iterated `add_dialogue` calls with a fixed turn, as a caller of the
server would issue them one by one. -/
def iterAdd : Nat → MemState → MemState
  | 0, s => s
  | n + 1, s => iterAdd n (add_dialogue s "user" "turn" "2025-01-01T00:00:00").1

/-- Modelled from the spec: the adaptive retrieval depth
`k_dyn = floor(k_base * (1 + delta * C_q))` of the HybridRetriever.  The
adaptive retriever (`core/retriever.py::adaptive_retrieve`, referenced by
the source docstrings) is absent from this repository; only the formula is
stated, in the spec and in the `ask_memory` tool description. -/
def k_dyn (k_base : Nat) (delta C_q : ℚ) : Nat :=
  (⌊(k_base : ℚ) * (1 + delta * C_q)⌋).toNat

/-- The facts appended by the `finalize` loop when it starts with `n`
entries already stored: one fact per dialogue, in buffer order, with
consecutive embedding indices. -/
def facts_from : Nat → List Dialogue → List AtomicFact
  | _, [] => []
  | n, d :: ds => mk_fact n d :: facts_from (n + 1) ds

/-- The observable content of an atomic fact: speaker, statement, timestamp. -/
def factView (f : AtomicFact) : String × String × String :=
  (f.speaker, f.fact, f.timestamp)

/-- The corresponding view of a buffered dialogue. -/
def dialogueView (d : Dialogue) : String × String × String :=
  (d.speaker, d.content, d.timestamp)

/-- The apostrophe character, written by code point. -/
def apostrophe : Char := Char.ofNat 39

/-- The content of the temporal-anchoring scenario turn:
`He'll meet Bob tomorrow at 2pm`. -/
def c5_content : String :=
  "He" ++ String.singleton apostrophe ++ "ll meet Bob tomorrow at 2pm"

/-- The state after ingesting the scenario turn alone into an empty window. -/
def c5_state : MemState :=
  (add_dialogue initState "Alice" c5_content "2025-11-15T09:00:00").1

/-- The state after flushing the scenario window. -/
def c5_final : MemState := (finalize "2026-01-01T00:00:00" c5_state).1

/-- A batch whose second entry has empty content, which the spec contract
classifies as a validation failure. -/
def c7_batch : List Dialogue :=
  [⟨"Alice", "hello there", "2025-01-01T09:00:00"⟩,
   ⟨"Bob", "", "not-a-timestamp"⟩,
   ⟨"Carol", "see you", "2025-01-01T10:00:00"⟩]

/-- First ingestion of a run in which a flush intervenes between two adds. -/
def c8_first : MemState × AddResult :=
  add_dialogue initState "Alice" "first turn" "2025-01-01T09:00:00"

/-- Second ingestion of that run, issued after a flush of the first turn. -/
def c8_second : MemState × AddResult :=
  add_dialogue (finalize "2025-01-01T10:00:00" c8_first.1).1
    "Bob" "second turn" "2025-01-01T11:00:00"

/-- Taking the length of the left list back off an append returns it. -/
theorem take_len_append {α : Type} : ∀ (l1 l2 : List α), (l1 ++ l2).take l1.length = l1
  | [], _ => rfl
  | x :: xs, l2 => by
    simp [List.take, take_len_append xs l2]

/-- Characterization of the fold inside `add_dialogues_batch`: the buffer
gains the dialogues in input order and the global dialogue counter grows by
their number; entries and the rest of the metadata are untouched. -/
theorem batch_foldl (dialogues : List Dialogue) (s : MemState) :
    dialogues.foldl (fun st d => (add_dialogue st d.speaker d.content d.timestamp).1) s =
      { s with
        dialogue_buffer := s.dialogue_buffer ++ dialogues
        metadata := { s.metadata with
          total_dialogues := s.metadata.total_dialogues + dialogues.length } } := by
  induction dialogues generalizing s with
  | nil => simp
  | cons d tl ih =>
    cases d with
    | mk sp c t =>
      rw [List.foldl_cons, ih]
      simp only [add_dialogue, List.append_assoc, List.singleton_append, List.length_cons]
      refine congrArg (fun k => MemState.mk _ _ { s.metadata with total_dialogues := k }) ?_
      omega

/-- Characterization of the `finalize` loop: it appends exactly one fact per
buffered dialogue, numbered from the current entry count, and advances the
atom counter by the number of dialogues; the buffer and the rest of the
metadata are untouched. -/
theorem foldl_absorb (ds : List Dialogue) (st : MemState) :
    ds.foldl absorb st =
      { st with
        memory_entries := st.memory_entries ++ facts_from st.memory_entries.length ds
        metadata := { st.metadata with
          total_atoms := st.metadata.total_atoms + ds.length } } := by
  induction ds generalizing st with
  | nil => simp [facts_from]
  | cons d tl ih =>
    rw [List.foldl_cons, ih]
    simp [absorb, facts_from, List.append_assoc, List.length_cons]
    omega

/-- The `finalize` loop emits one fact per dialogue. -/
theorem facts_from_length : ∀ (n : Nat) (ds : List Dialogue),
    (facts_from n ds).length = ds.length
  | _, [] => rfl
  | n, _ :: ds => by simp [facts_from, facts_from_length (n + 1) ds]

/-- The facts the `finalize` loop emits carry the dialogues speaker, content
and timestamp verbatim, in order. -/
theorem facts_from_map : ∀ (n : Nat) (ds : List Dialogue),
    (facts_from n ds).map factView = ds.map dialogueView
  | _, [] => rfl
  | n, d :: ds => by
    simp [facts_from, factView, dialogueView, mk_fact, facts_from_map (n + 1) ds]

/-- C1: counterexample.  The claim says the window never holds more than
W = 40 turns and that the 41st add triggers an automatic flush of the prior
40.  In the code `add_dialogue` has no capacity check: after 41 adds the
buffer holds 41 turns and no compression has happened (no facts, zero
atoms). -/
theorem c1_counterexample :
    40 < (iterAdd 41 initState).dialogue_buffer.length ∧
    (iterAdd 41 initState).memory_entries = [] ∧
    (iterAdd 41 initState).metadata.total_atoms = 0 := by
  decide

/-- C1 (amended): the buffer is unbounded and `add_dialogue` never triggers
a flush: every call grows the window by exactly one turn and leaves the
fact store untouched, whatever the current window size; compression happens
only on an explicit `finalize`. -/
theorem c1_no_auto_flush (s : MemState) (speaker content timestamp : String) :
    (add_dialogue s speaker content timestamp).1.dialogue_buffer.length =
      s.dialogue_buffer.length + 1 ∧
    (add_dialogue s speaker content timestamp).1.memory_entries = s.memory_entries := by
  simp [add_dialogue]

/-- C2: counterexample.  The claim says a turn with empty content or a
timestamp that is not a datetime is rejected with a `ValidationError` and
never enters the window.  In the code the turn is appended unconditionally
and the call reports status `buffered`. -/
theorem c2_counterexample :
    (add_dialogue initState "Alice" "" "not-a-timestamp").1.dialogue_buffer =
      [⟨"Alice", "", "not-a-timestamp"⟩] ∧
    (add_dialogue initState "Alice" "" "not-a-timestamp").2 =
      { status := "buffered", dialogue_id := 0 } := by
  decide

/-- C2 (amended): `add_dialogue` performs no validation: every turn,
including one with empty content or an unparseable timestamp, is appended
to the window, and the call returns status `buffered` with `dialogue_id`
equal to the turn's index in the current buffer. -/
theorem c2_add_unvalidated (s : MemState) (speaker content timestamp : String) :
    (add_dialogue s speaker content timestamp).1.dialogue_buffer =
      s.dialogue_buffer ++ [⟨speaker, content, timestamp⟩] ∧
    (add_dialogue s speaker content timestamp).2 =
      { status := "buffered", dialogue_id := s.dialogue_buffer.length } := by
  simp [add_dialogue]

/-- C3: the adaptive depth `k_dyn = floor(k_base * (1 + delta * C_q))`
satisfies `k_base ≤ k_dyn` for every complexity `C_q` in `[0, 1]` and
nonnegative `delta`, with `k_dyn` at `C_q = 0` equal to `k_base` and
`k_dyn` at `C_q = 1` at least that; the entries the code returns for a
query with base depth `k_base` number at most `k_dyn`. -/
theorem c3_adaptive_depth (s : MemState) (k_base : Nat) (delta C_q : ℚ)
    (hd : 0 ≤ delta) (hc0 : 0 ≤ C_q) (_hc1 : C_q ≤ 1) :
    k_base ≤ k_dyn k_base delta C_q ∧
    k_dyn k_base delta 0 = k_base ∧
    k_dyn k_base delta 0 ≤ k_dyn k_base delta 1 ∧
    (relevant_entries s k_base).length ≤ k_dyn k_base delta C_q := by
  have key : ∀ C : ℚ, 0 ≤ C → k_base ≤ k_dyn k_base delta C := by
    intro C hC
    have hk : (0 : ℚ) ≤ (k_base : ℚ) := by positivity
    have hdc : (0 : ℚ) ≤ delta * C := mul_nonneg hd hC
    have h1 : (k_base : ℚ) ≤ (k_base : ℚ) * (1 + delta * C) := by nlinarith
    have h2 : (k_base : ℤ) ≤ ⌊(k_base : ℚ) * (1 + delta * C)⌋ := by
      refine Int.le_floor.mpr ?_
      push_cast
      linarith
    unfold k_dyn
    omega
  have hzero : k_dyn k_base delta 0 = k_base := by
    simp [k_dyn]
  refine ⟨key C_q hc0, hzero, ?_, ?_⟩
  · rw [hzero]
    exact key 1 (by norm_num)
  · have hlen : (relevant_entries s k_base).length ≤ k_base := by
      simp only [relevant_entries, List.length_take]
      omega
    exact le_trans hlen (key C_q hc0)

/-- C3 witness: the theorem applied at the empty store with `k_base = 5`,
`delta = 1/2`, `C_q = 1`. -/
theorem c3_adaptive_depth_witness :
    (0 : ℚ) ≤ 1 / 2 ∧ (0 : ℚ) ≤ 1 ∧ (1 : ℚ) ≤ 1 ∧
    (5 ≤ k_dyn 5 (1 / 2) 1 ∧
     k_dyn 5 (1 / 2) 0 = 5 ∧
     k_dyn 5 (1 / 2) 0 ≤ k_dyn 5 (1 / 2) 1 ∧
     (relevant_entries initState 5).length ≤ k_dyn 5 (1 / 2) 1) :=
  ⟨by norm_num, by norm_num, le_refl 1,
   c3_adaptive_depth initState 5 (1 / 2) 1 (by norm_num) (by norm_num) (le_refl 1)⟩

/-- C4: atomic facts are append-only.  Every operation other than the
explicit `clear` (add, batch add, finalize, ask, entry listing) leaves
every already stored fact in place unchanged: the old entry list is an
initial segment of the new one, so the statement, timestamp and all other
fields of an existing fact are never mutated or retracted. -/
theorem c4_facts_append_only (op : Op) (s : MemState) :
    (applyOp op s).memory_entries.take s.memory_entries.length = s.memory_entries := by
  cases op with
  | addD speaker content timestamp => simp [applyOp, add_dialogue, List.take_length]
  | addBatch dialogues =>
    simp [applyOp, add_dialogues_batch, batch_foldl, List.take_length]
  | finalizeOp now =>
    simp only [applyOp, finalize]
    by_cases h : s.dialogue_buffer = []
    · simp [h, List.take_length]
    · simp [h, foldl_absorb, take_len_append]
  | query text top_k => simp [applyOp, askOp, List.take_length]
  | getEntries limit => simp [applyOp, List.take_length]

/-- C5: counterexample.  The claim says the flushed fact for the scenario
turn has the anchored timestamp `2025-11-16T14:00:00` and a statement no
longer containing `He`.  In the code `finalize` copies content and
timestamp verbatim: the fact keeps the original timestamp
`2025-11-15T09:00:00` (not the anchored one) and its statement still
starts with the pronoun `He`. -/
theorem c5_counterexample :
    c5_final.memory_entries.map AtomicFact.timestamp = ["2025-11-15T09:00:00"] ∧
    ("2025-11-15T09:00:00" : String) ≠ "2025-11-16T14:00:00" ∧
    c5_final.memory_entries.map (fun f => ("He".data).isPrefixOf f.fact.data) = [true] := by
  decide

/-- C5 (amended): flushing the scenario turn produces exactly one fact
whose statement is the original content verbatim (still containing the
pronoun) and whose timestamp is the turn's own `2025-11-15T09:00:00`,
unchanged; no temporal anchoring or coreference resolution happens. -/
theorem c5_verbatim_fact :
    c5_final.memory_entries =
      [{ speaker := "Alice", fact := c5_content,
         timestamp := "2025-11-15T09:00:00", embedding_id := "emb_0" }] := by
  decide

/-- C6: no-data conditions are normal statuses, not errors.  `finalize` on
an empty window returns the `no_dialogues_to_process` status with the state
unchanged (hence it is idempotent there), and `ask` against an empty fact
store returns the fixed no-memories message; both operations are total. -/
theorem c6_empty_is_status (now : String) (s : MemState) (query : String) (top_k : Nat) :
    (s.dialogue_buffer = [] →
      finalize now s = (s, .no_dialogues_to_process) ∧
      finalize now (finalize now s).1 = (s, .no_dialogues_to_process)) ∧
    (s.memory_entries = [] → ask s query top_k = noMemoriesMsg) := by
  constructor
  · intro h
    constructor <;> simp [finalize, h]
  · intro h
    simp [ask, h]

/-- C6 witness: the theorem applied at the initial state with the spec
scenario query (empty text, base depth 5). -/
theorem c6_empty_is_status_witness :
    finalize "2026-01-01T00:00:00" initState = (initState, .no_dialogues_to_process) ∧
    ask initState "" 5 = noMemoriesMsg :=
  ⟨((c6_empty_is_status "2026-01-01T00:00:00" initState "" 5).1 rfl).1,
   (c6_empty_is_status "2026-01-01T00:00:00" initState "" 5).2 rfl⟩

/-- C7: counterexample.  The claim says a batch short-circuits at the first
validation failure, reports its index, and commits only the prior
additions.  In the code the second entry of `c7_batch` has empty content (a
validation failure per the spec contract), yet all three turns are
committed, including the one after the failure, and the result reports
plain success with count 3 and no error index. -/
theorem c7_counterexample :
    (c7_batch.get? 1).map Dialogue.content = some "" ∧
    (add_dialogues_batch initState c7_batch).1.dialogue_buffer = c7_batch ∧
    (add_dialogues_batch initState c7_batch).2 =
      { status := "buffered", count := 3, total_buffered := 3 } := by
  decide

/-- C7 (amended): `add_dialogues_batch` applies `add_dialogue` to every
entry unconditionally in input order, with no validation, no
short-circuiting and no failure reporting: the window gains all submitted
turns and the result is always status `buffered` with `count` the number
submitted and `total_buffered` the new window size. -/
theorem c7_batch_unconditional (s : MemState) (dialogues : List Dialogue) :
    add_dialogues_batch s dialogues =
      ({ s with
         dialogue_buffer := s.dialogue_buffer ++ dialogues
         metadata := { s.metadata with
           total_dialogues := s.metadata.total_dialogues + dialogues.length } },
       { status := "buffered", count := dialogues.length,
         total_buffered := s.dialogue_buffer.length + dialogues.length }) := by
  simp [add_dialogues_batch, batch_foldl]

/-- C8: counterexample.  The claim says the value returned by ingestion is
a monotonically increasing sequence number across the lifetime of the
instance, including across flushes.  In the code `dialogue_id` is the index
in the current buffer: a turn added after a flush gets `dialogue_id = 0`
again, not a value strictly greater than the previous turn's. -/
theorem c8_counterexample :
    c8_first.2.dialogue_id = 0 ∧
    c8_second.2.dialogue_id = 0 ∧
    ¬ c8_first.2.dialogue_id < c8_second.2.dialogue_id := by
  decide

/-- C8 (amended): the returned `dialogue_id` is the turn's index in the
current buffer, so it increases by exactly one between two adds with no
intervening flush or clear, but resets when the buffer is emptied; the
global counter `metadata.total_dialogues` is what increases monotonically
on every add, and it is not returned. -/
theorem c8_sequence_numbers (s : MemState) (sp1 c1 t1 sp2 c2 t2 : String) :
    (add_dialogue (add_dialogue s sp1 c1 t1).1 sp2 c2 t2).2.dialogue_id =
      (add_dialogue s sp1 c1 t1).2.dialogue_id + 1 ∧
    (add_dialogue s sp1 c1 t1).1.metadata.total_dialogues =
      s.metadata.total_dialogues + 1 := by
  simp [add_dialogue]

/-- C9: retrieval is deterministic and side-effect-free.  `ask` leaves the
window, the fact store and the metadata unchanged, and two calls with equal
query text and equal base depth on the same state return the same answer. -/
theorem c9_ask_pure (s : MemState) (query : String) (top_k : Nat) :
    (askOp s query top_k).1.dialogue_buffer = s.dialogue_buffer ∧
    (askOp s query top_k).1.memory_entries = s.memory_entries ∧
    (askOp s query top_k).1.metadata = s.metadata ∧
    ∀ query2 top_k2, query2 = query → top_k2 = top_k →
      (askOp s query2 top_k2).2 = (askOp s query top_k).2 := by
  refine ⟨rfl, rfl, rfl, ?_⟩
  intro query2 top_k2 hq hk
  subst hq
  subst hk
  rfl

/-- C9 witness: the theorem applied at the scenario store with a fixed
query and depth. -/
theorem c9_ask_pure_witness :
    (askOp c5_final "who" 5).1.dialogue_buffer = c5_final.dialogue_buffer ∧
    (askOp c5_final "who" 5).1.memory_entries = c5_final.memory_entries ∧
    (askOp c5_final "who" 5).1.metadata = c5_final.metadata ∧
    (askOp c5_final "who" 5).2 = (askOp c5_final "who" 5).2 :=
  ⟨(c9_ask_pure c5_final "who" 5).1,
   (c9_ask_pure c5_final "who" 5).2.1,
   (c9_ask_pure c5_final "who" 5).2.2.1,
   (c9_ask_pure c5_final "who" 5).2.2.2 "who" 5 rfl rfl⟩

/-- C10: flushing a non-empty buffer emits exactly one entry per buffered
dialogue, in buffer order, each carrying the dialogue's speaker, content
and timestamp verbatim; afterwards the buffer is empty, the atom counter
has grown by exactly the number of dialogues, and the returned result is
`success` with that processed count and the new atom total. -/
theorem c10_finalize_spec (now : String) (s : MemState)
    (h : s.dialogue_buffer ≠ []) :
    (finalize now s).1.memory_entries =
      s.memory_entries ++ facts_from s.memory_entries.length s.dialogue_buffer ∧
    (finalize now s).1.memory_entries.map factView =
      s.memory_entries.map factView ++ s.dialogue_buffer.map dialogueView ∧
    (facts_from s.memory_entries.length s.dialogue_buffer).length =
      s.dialogue_buffer.length ∧
    (finalize now s).1.dialogue_buffer = [] ∧
    (finalize now s).1.metadata.total_atoms =
      s.metadata.total_atoms + s.dialogue_buffer.length ∧
    (finalize now s).2 =
      .success s.dialogue_buffer.length
        (s.metadata.total_atoms + s.dialogue_buffer.length) := by
  simp [finalize, h, foldl_absorb, facts_from_length, facts_from_map, List.map_append]

/-- C10 witness: the theorem applied at the scenario state holding one
buffered turn. -/
theorem c10_finalize_spec_witness :
    c5_state.dialogue_buffer ≠ [] ∧
    ((finalize "2026-01-01T00:00:00" c5_state).1.memory_entries =
       c5_state.memory_entries ++
         facts_from c5_state.memory_entries.length c5_state.dialogue_buffer ∧
     (finalize "2026-01-01T00:00:00" c5_state).1.memory_entries.map factView =
       c5_state.memory_entries.map factView ++
         c5_state.dialogue_buffer.map dialogueView ∧
     (facts_from c5_state.memory_entries.length c5_state.dialogue_buffer).length =
       c5_state.dialogue_buffer.length ∧
     (finalize "2026-01-01T00:00:00" c5_state).1.dialogue_buffer = [] ∧
     (finalize "2026-01-01T00:00:00" c5_state).1.metadata.total_atoms =
       c5_state.metadata.total_atoms + c5_state.dialogue_buffer.length ∧
     (finalize "2026-01-01T00:00:00" c5_state).2 =
       .success c5_state.dialogue_buffer.length
         (c5_state.metadata.total_atoms + c5_state.dialogue_buffer.length)) :=
  ⟨by decide, c10_finalize_spec "2026-01-01T00:00:00" c5_state (by decide)⟩

end SimpleMem
